import Mathlib

/-!
Shallow embedding of the SmartStudy mobile client's exam-attempt workflow and
chat-session workflow, translated from the TypeScript sources:

  src/services/examApi.ts    (typed exam API layer: parseJson, request, ApiError)
  src/services/chatApi.ts    (chat API layer: fetchMostRecentSessionId, ...)
  src/components/ExamScreen.tsx  (exam workflow state and handlers)
  src/components/ChatScreen.tsx  (chat workflow state, handleSend, hydration)

Modelling conventions:
  - React `useState` pieces become fields of an explicit state record; a
    handler becomes a pure function from the state (plus the awaited API
    outcome, passed in explicitly since the network is external) to the new
    state together with the request it transmitted (if any) and the alert it
    raised (if any).
  - JavaScript numbers are modelled as `Int` (the claims under study only use
    ordering and clamping; fractional values are irrelevant to them).
  - JavaScript truthiness on strings is modelled explicitly: `""` is falsy;
    `x ?? y` on a possibly-null string is `Option.getD`; `x || y` is `jsOrStr`.
  - Nondeterministic environment inputs (generated message ids, clock
    readings, locale time formatting) are passed as explicit parameters.
-/

inductive QuestionType
  | MultipleChoice
  | TrueFalse
  | ShortAnswer
deriving DecidableEq, Repr

inductive QuestionDifficulty
  | Easy
  | Medium
  | Hard
deriving DecidableEq, Repr

inductive ExamStatus
  | InProgress
  | Completed
  | Cancelled
deriving DecidableEq, Repr

structure ExamOption where
  optionId : Int
  optionText : String
deriving DecidableEq, Repr

structure ExamQuestion where
  id : Int
  subject : String
  chapter : String
  topic : String
  text : String
  type : QuestionType
  difficulty : QuestionDifficulty
  options : List ExamOption
deriving DecidableEq, Repr

structure ExamTemplateRequest where
  name : String
  subject : String
  chapter : String
  totalQuestions : Int
  durationMinutes : Int
  adaptiveEnabled : Bool
deriving DecidableEq, Repr

/-- `ExamTemplateResponse extends ExamTemplateRequest` in the source. -/
structure ExamTemplateResponse extends ExamTemplateRequest where
  id : Int
  createdAt : String
deriving DecidableEq, Repr

structure StartExamRequest where
  studentId : String
  examTemplateId : Int
deriving DecidableEq, Repr

structure StartExamResponse where
  attemptId : Int
  template : ExamTemplateResponse
  firstQuestion : ExamQuestion
deriving DecidableEq, Repr

structure SubmitAnswerRequest where
  questionId : Int
  selectedOptionId : Option Int
  freeTextAnswer : Option String
  timeTakenSeconds : Int
deriving DecidableEq, Repr

structure DifficultyStats where
  attempted : Int
  correct : Int
  accuracy : Int
deriving DecidableEq, Repr

structure DifficultyBreakdown where
  Easy : DifficultyStats
  Medium : DifficultyStats
  Hard : DifficultyStats
deriving DecidableEq, Repr

structure CurrentStats where
  answeredCount : Int
  correctCount : Int
  wrongCount : Int
  currentAccuracy : Int
  difficultyBreakdown : DifficultyBreakdown
deriving DecidableEq, Repr

structure SubmitAnswerResponse where
  isCorrect : Option Bool
  isCompleted : Bool
  nextQuestion : Option ExamQuestion
  currentStats : CurrentStats
deriving DecidableEq, Repr

structure ExamSummaryAnswerLogEntry where
  questionId : Int
  questionText : String
  selectedOptionId : Option Int
  correctOptionId : Option Int
  isCorrect : Option Bool
  timeTakenSeconds : Int
deriving DecidableEq, Repr

structure ExamSummaryResponse where
  attemptId : Int
  studentId : String
  template : ExamTemplateResponse
  scorePercent : Int
  correctCount : Int
  wrongCount : Int
  totalQuestions : Int
  startedAt : String
  completedAt : String
  status : ExamStatus
  perDifficultyStats : DifficultyBreakdown
  answerLog : List ExamSummaryAnswerLogEntry
deriving DecidableEq, Repr

structure ExamHistoryEntry where
  attemptId : Int
  studentId : String
  examTemplateId : Int
  examName : String
  subject : String
  chapter : String
  scorePercent : Int
  correctCount : Int
  wrongCount : Int
  totalQuestions : Int
  status : ExamStatus
  startedAt : String
  completedAt : String
deriving DecidableEq, Repr

/-- A thrown JavaScript value, as inspected by `handleError`'s
`error instanceof Error` test: either an `Error` object carrying a message
(`ApiError` included), or some non-`Error` value. -/
inductive JsThrown
  | errObj (message : String)
  | nonError
deriving DecidableEq, Repr

/-- An `Alert.alert(title, body)` surfaced to the user. -/
structure Alert where
  title : String
  body : String
deriving DecidableEq, Repr

/-- JavaScript `a || b` on an optional string `a` (absent and `""` are falsy). -/
def jsOrStr (a : Option String) (b : String) : String :=
  match a with
  | some s => if s = "" then b else s
  | none => b

/-- JavaScript truthiness of an optional string: present and nonempty. -/
def truthyStr (o : Option String) : Bool :=
  match o with
  | some s => s ≠ ""
  | none => false

/-- Whitespace as JavaScript string trimming sees it (restricted to the
common ASCII whitespace characters). -/
def isJsSpace (c : Char) : Bool :=
  c = ' ' || c = '\t' || c = '\n' || c = '\r'

/-- Leading-whitespace removal on a character list. -/
def dropLeadingSpaces : List Char → List Char
  | [] => []
  | c :: cs => if isJsSpace c then dropLeadingSpaces cs else c :: cs

/-- JavaScript `s.trim()` (both ends), via structurally recursive character
list operations so that concrete values evaluate inside the kernel. -/
def jsTrim (s : String) : String :=
  String.mk ((dropLeadingSpaces ((dropLeadingSpaces s.data).reverse)).reverse)

/-- JavaScript `s.toLowerCase()` (ASCII case mapping). -/
def jsToLower (s : String) : String :=
  String.mk (s.data.map Char.toLower)

/-- JavaScript `s.startsWith(pre)`. -/
def jsStartsWith (s pre : String) : Bool :=
  pre.data.isPrefixOf s.data

/-- Digit-list accumulation for the integer fragment of `Number(...)`. -/
def digitsToNat : List Char → Nat → Option Nat
  | [], acc => some acc
  | c :: cs, acc =>
    if c.isDigit then digitsToNat cs (acc * 10 + (c.toNat - 48)) else none

/-- Decimal-integer parse of a nonempty character list, with optional leading
minus sign. -/
def parseIntChars : List Char → Option Int
  | [] => none
  | '-' :: cs => if cs = [] then none else (digitsToNat cs 0).map (fun n => -(n : Int))
  | cs => (digitsToNat cs 0).map (fun n => (n : Int))

/-- ExamScreen's `toNumber`: `Number(value)` when finite, else `0`.
Only integer numeric literals are modelled (`Number("")` and whitespace-only
input are `0` in JS, as here via `getD`; fractional, exponent, hex and
signed-plus literals are not modelled — no claim depends on them). -/
def toNumber (value : String) : Int :=
  (parseIntChars (jsTrim value).data).getD 0

/-- ExamScreen's `answerState` (all three fields are text-input strings). -/
structure AnswerState where
  selectedOptionId : String
  freeTextAnswer : String
  timeTakenSeconds : String
deriving DecidableEq, Repr

/-- ExamScreen's `startForm`. -/
structure StartForm where
  studentId : String
  examTemplateId : String
deriving DecidableEq, Repr

/-- ExamScreen's `LoadingState`; an undefined field in JS is falsy, modelled
as `false`. -/
structure LoadingState where
  template : Bool
  start : Bool
  answer : Bool
  summary : Bool
  history : Bool
deriving DecidableEq, Repr

/-- The ExamScreen component state: one field per `useState` hook. -/
structure ExamScreenState where
  templatePayload : ExamTemplateRequest
  createdTemplate : Option ExamTemplateResponse
  activeAttempt : Option StartExamResponse
  currentQuestion : Option ExamQuestion
  answerState : AnswerState
  lastAnswerResponse : Option SubmitAnswerResponse
  summary : Option ExamSummaryResponse
  historyStudentId : String
  history : List ExamHistoryEntry
  loading : LoadingState
  startForm : StartForm
deriving DecidableEq, Repr

/-- ExamScreen's `disableAnswerSubmit` memo: disabled when there is no current
question or no active attempt; for a `MultipleChoice` question, disabled when
no option is selected (`!answerState.selectedOptionId`, i.e. empty string). -/
def disableAnswerSubmit (s : ExamScreenState) : Bool :=
  match s.currentQuestion, s.activeAttempt with
  | none, _ => true
  | _, none => true
  | some q, some _ =>
    if q.type = QuestionType.MultipleChoice then
      s.answerState.selectedOptionId = ""
    else
      false

/-- ExamScreen's `handleError`: alert titled `Request failed` whose body is the
error's message when the thrown value is an `Error`, else a generic message. -/
def handleError (e : JsThrown) : Alert :=
  { title := "Request failed"
    body := match e with
      | JsThrown.errObj m => m
      | JsThrown.nonError => "Something went wrong" }

/-- Result of one ExamScreen handler run: the new component state, the request
payload transmitted to the API (`none` when the handler returned before
issuing a request), and the alert raised (`none` when silent). -/
structure HandlerRun (ρ : Type) where
  state : ExamScreenState
  request : Option ρ
  alert : Option Alert
deriving DecidableEq, Repr

/-- ExamScreen's `handleCreateTemplate`: clamps `totalQuestions` and
`durationMinutes` up to at least 1, transmits the payload; on success stores
the created template and clears attempt, question and summary; on failure
routes to `handleError`. The `finally` clause leaves `loading.template`
`false` either way. -/
def handleCreateTemplate (s : ExamScreenState)
    (api : Except JsThrown ExamTemplateResponse) :
    HandlerRun ExamTemplateRequest :=
  let payload : ExamTemplateRequest :=
    { s.templatePayload with
      totalQuestions := max 1 s.templatePayload.totalQuestions
      durationMinutes := max 1 s.templatePayload.durationMinutes }
  match api with
  | Except.ok result =>
    { state :=
        { s with
          createdTemplate := some result
          activeAttempt := none
          currentQuestion := none
          summary := none
          loading := { s.loading with template := false } }
      request := some payload
      alert := some { title := "Template created"
                      body := "Template ID: " ++ toString result.id } }
  | Except.error e =>
    { state := { s with loading := { s.loading with template := false } }
      request := some payload
      alert := some (handleError e) }

/-- ExamScreen's `handleStartExam`: guards on both form fields being truthy
(nonempty), then transmits `{studentId: trimmed, examTemplateId: toNumber}`;
on success stores the attempt, sets the current question to `firstQuestion`,
clears the last answer response and the summary, and resets the answer form. -/
def handleStartExam (s : ExamScreenState)
    (api : Except JsThrown StartExamResponse) :
    HandlerRun StartExamRequest :=
  if s.startForm.studentId = "" ∨ s.startForm.examTemplateId = "" then
    { state := s
      request := none
      alert := some { title := "Missing data"
                      body := "Student ID and template ID are required" } }
  else
    let payload : StartExamRequest :=
      { studentId := jsTrim s.startForm.studentId
        examTemplateId := toNumber s.startForm.examTemplateId }
    match api with
    | Except.ok result =>
      { state :=
          { s with
            activeAttempt := some result
            currentQuestion := some result.firstQuestion
            lastAnswerResponse := none
            summary := none
            answerState := { selectedOptionId := ""
                             freeTextAnswer := ""
                             timeTakenSeconds := "30" }
            loading := { s.loading with start := false } }
        request := some payload
        alert := none }
    | Except.error e =>
      { state := { s with loading := { s.loading with start := false } }
        request := some payload
        alert := some (handleError e) }

/-- ExamScreen's `handleSubmitAnswer`: returns silently (no request) without
an active attempt and a current question; otherwise builds the
`SubmitAnswerRequest` (option id for `MultipleChoice`, trimmed free text with
`"" → null` otherwise, `timeTakenSeconds` clamped to ≥ 0) and transmits it.
On success stores the response, replaces the current question with
`response.nextQuestion`, clears the summary exactly when `nextQuestion` is
null, and resets the answer form. -/
def handleSubmitAnswer (s : ExamScreenState)
    (api : Except JsThrown SubmitAnswerResponse) :
    HandlerRun SubmitAnswerRequest :=
  match s.activeAttempt, s.currentQuestion with
  | some _, some q =>
    let req : SubmitAnswerRequest :=
      { questionId := q.id
        selectedOptionId :=
          if q.type = QuestionType.MultipleChoice then
            some (toNumber s.answerState.selectedOptionId)
          else none
        freeTextAnswer :=
          if q.type = QuestionType.MultipleChoice then none
          else if jsTrim s.answerState.freeTextAnswer = "" then none
          else some (jsTrim s.answerState.freeTextAnswer)
        timeTakenSeconds := max 0 (toNumber s.answerState.timeTakenSeconds) }
    match api with
    | Except.ok response =>
      { state :=
          { s with
            lastAnswerResponse := some response
            currentQuestion := response.nextQuestion
            summary := if response.nextQuestion.isNone then none else s.summary
            answerState := { selectedOptionId := ""
                             freeTextAnswer := ""
                             timeTakenSeconds := "30" }
            loading := { s.loading with answer := false } }
        request := some req
        alert := none }
    | Except.error e =>
      { state := { s with loading := { s.loading with answer := false } }
        request := some req
        alert := some (handleError e) }
  | _, _ => { state := s, request := none, alert := none }

/-- ExamScreen's `handleFetchSummary`: guards on an active attempt, requests
the summary for its `attemptId`, stores it wholesale on success. -/
def handleFetchSummary (s : ExamScreenState)
    (api : Except JsThrown ExamSummaryResponse) :
    HandlerRun Int :=
  match s.activeAttempt with
  | none =>
    { state := s
      request := none
      alert := some { title := "No attempt"
                      body := "Start an exam attempt first" } }
  | some attempt =>
    match api with
    | Except.ok data =>
      { state := { s with
          summary := some data
          loading := { s.loading with summary := false } }
        request := some attempt.attemptId
        alert := none }
    | Except.error e =>
      { state := { s with loading := { s.loading with summary := false } }
        request := some attempt.attemptId
        alert := some (handleError e) }

/-- ExamScreen's `handleFetchHistory`: guards on a nonempty trimmed student
id, requests that student's history, replaces the list wholesale on success. -/
def handleFetchHistory (s : ExamScreenState)
    (api : Except JsThrown (List ExamHistoryEntry)) :
    HandlerRun String :=
  if jsTrim s.historyStudentId = "" then
    { state := s
      request := none
      alert := some { title := "Missing student"
                      body := "Enter a student ID" } }
  else
    match api with
    | Except.ok result =>
      { state := { s with
          history := result
          loading := { s.loading with history := false } }
        request := some (jsTrim s.historyStudentId)
        alert := none }
    | Except.error e =>
      { state := { s with loading := { s.loading with history := false } }
        request := some (jsTrim s.historyStudentId)
        alert := some (handleError e) }

/-- The exam workflow state proper (the fields the error policy promises to
leave untouched on a failed call): created template, active attempt, current
question, last answer response, summary, history. -/
def workflowCore (s : ExamScreenState) :
    Option ExamTemplateResponse × Option StartExamResponse ×
    Option ExamQuestion × Option SubmitAnswerResponse ×
    Option ExamSummaryResponse × List ExamHistoryEntry :=
  (s.createdTemplate, s.activeAttempt, s.currentQuestion,
   s.lastAnswerResponse, s.summary, s.history)

/-- Typed error raised by the exam API layer (`ApiError extends Error`). -/
structure ApiError where
  status : Nat
  message : String
deriving DecidableEq, Repr

/-- The optional `message`/`error` fields of a JSON error body. -/
structure ErrorBody where
  message : Option String
  error : Option String
deriving DecidableEq, Repr

/-- An HTTP response as the exam API helper observes it: `ok`, numeric
`status`, `statusText`, the raw body text, and — when the raw text is valid
JSON — its parse, restricted to the `message`/`error` fields the error path
reads (`bodyJson = none` models `JSON.parse` raising). -/
structure HttpResponse where
  ok : Bool
  status : Nat
  statusText : String
  bodyRaw : String
  bodyJson : Option ErrorBody
deriving DecidableEq, Repr

/-- Result of parsing a response body in the exam API layer: the empty result
object (`{}`) or a JSON value. -/
inductive ParsedBody
  | emptyObj
  | json (b : ErrorBody)
deriving DecidableEq, Repr

/-- examApi's `parseJson`: an empty raw body yields `{}` without parsing;
otherwise `JSON.parse`, raising an `ApiError` carrying the response status
when the body is not valid JSON. -/
def parseJson (r : HttpResponse) : Except ApiError ParsedBody :=
  if r.bodyRaw = "" then Except.ok ParsedBody.emptyObj
  else
    match r.bodyJson with
    | some b => Except.ok (ParsedBody.json b)
    | none =>
      Except.error { status := r.status
                     message := "Failed to parse JSON: " ++ r.bodyRaw }

/-- examApi's `request` helper, from the point the response is available: on
non-success status, builds the error message as
`body?.message || body?.error || (statusText || "Request failed")` (a body
that is empty or unparsable keeps the default) and raises an `ApiError` with
the numeric status; a 204 yields `{}` without touching the body; otherwise
the body is parsed by `parseJson`. -/
def request (r : HttpResponse) : Except ApiError ParsedBody :=
  if r.ok = false then
    let dflt := if r.statusText = "" then "Request failed" else r.statusText
    let message :=
      match parseJson r with
      | Except.ok (ParsedBody.json b) => jsOrStr b.message (jsOrStr b.error dflt)
      | Except.ok ParsedBody.emptyObj => dflt
      | Except.error _ => dflt
    Except.error { status := r.status, message := message }
  else if r.status = 204 then Except.ok ParsedBody.emptyObj
  else parseJson r

/-- The `/most-recent-session` response shape (both fields optional). -/
structure MostRecentSessionResponse where
  status : Option String
  sessionId : Option String
deriving DecidableEq, Repr

/-- Outcome of the `fetch` inside `fetchMostRecentSessionId`: the transport
fails (the promise rejects), or a response arrives with an `ok` flag, a
status, and a body whose JSON parse either succeeds (`some data`, restricted
to the fields the code reads) or raises (`none`). -/
inductive ChatFetchOutcome
  | networkError
  | response (ok : Bool) (status : Nat) (json : Option MostRecentSessionResponse)
deriving DecidableEq, Repr

/-- chatApi's `fetchMostRecentSessionId`: everything runs inside one
`try/catch` returning `null`, so a transport failure or a JSON parse failure
yields `none`; a non-ok status yields `none`; otherwise the `sessionId` field
is returned when `status == "success"` and the id is truthy, else
`data?.sessionId ?? null`. -/
def fetchMostRecentSessionId (o : ChatFetchOutcome) : Option String :=
  match o with
  | ChatFetchOutcome.networkError => none
  | ChatFetchOutcome.response ok _ json =>
    if ok = false then none
    else
      match json with
      | none => none
      | some data =>
        if data.status = some ("success") ∧ truthyStr data.sessionId then
          data.sessionId
        else
          data.sessionId

/-- Message sender tag in the chat transcript. -/
inductive Sender
  | user
  | bot
deriving DecidableEq, Repr

/-- ChatScreen's `ChatMessage`. -/
structure ChatMessage where
  id : String
  text : String
  sender : Sender
  time : String
deriving DecidableEq, Repr

/-- ChatScreen's reducer actions (`{type:"add"}` / `{type:"set"}`). -/
inductive ChatAction
  | add (m : ChatMessage)
  | set (ms : List ChatMessage)
deriving DecidableEq, Repr

/-- ChatScreen's transcript reducer: `add` appends, `set` replaces wholesale
(the `Array.isArray` guard always passes under this typing). -/
def chatReducer (state : List ChatMessage) (a : ChatAction) : List ChatMessage :=
  match a with
  | ChatAction.add m => state ++ [m]
  | ChatAction.set ms => ms

/-- An apostrophe, as a string. -/
def apos : String := String.singleton (Char.ofNat 39)

/-- Environment inputs of the chat screen that come from the clock and the
locale: the greeting's render time, the current formatted time, and the
`Date`-parse-and-format used by `formatTimestamp` (`none` models an invalid
date, i.e. `Number.isNaN(parsed.getTime())`). -/
structure ChatEnv where
  initTime : String
  nowTime : String
  fmtTime : String → Option String

/-- ChatScreen's module-level `initialMessages`: the single default bot
greeting. -/
def initialMessages (env : ChatEnv) : List ChatMessage :=
  [{ id := "1"
     text := "👋 Hi!  I" ++ apos ++ "m Smarty — your Smart Study AI Assistant. Ask me anything about your studies, solve doubts and more... What would you like to learn today?"
     sender := Sender.bot
     time := env.initTime }]

/-- ChatScreen's `formatTimestamp`: a missing or empty value, or one that does
not parse as a date, formats the current time; otherwise the parsed value is
formatted. -/
def formatTimestamp (env : ChatEnv) (value : Option String) : String :=
  match value with
  | none => env.nowTime
  | some v =>
    if v = "" then env.nowTime
    else
      match env.fmtTime v with
      | none => env.nowTime
      | some t => t

/-- chatApi's `ChatHistoryItem` (`id` is `number | string`, modelled as a
string since the code only stringifies it into message ids). -/
structure ChatHistoryItem where
  id : Option String
  message : String
  reply : Option String
  timestamp : Option String
deriving DecidableEq, Repr

/-- One iteration of the `forEach` in `mapHistoryToMessages`: `baseId` is
`entry.id ?? "history-<index>"`; a truthy (nonempty) `message` pushes a user
message, a truthy `reply` pushes a bot message. -/
def historyEntryMessages (env : ChatEnv) (idx : Nat) (entry : ChatHistoryItem) :
    List ChatMessage :=
  let baseId := entry.id.getD ("history-" ++ toString idx)
  (if entry.message = "" then []
   else
     [{ id := baseId ++ "-user"
        text := entry.message
        sender := Sender.user
        time := formatTimestamp env entry.timestamp }]) ++
  (match entry.reply with
   | none => []
   | some r =>
     if r = "" then []
     else
       [{ id := baseId ++ "-bot"
          text := r
          sender := Sender.bot
          time := formatTimestamp env entry.timestamp }])

/-- The index-threading `forEach` accumulation of `mapHistoryToMessages`. -/
def mapHistoryAux (env : ChatEnv) (idx : Nat) :
    List ChatHistoryItem → List ChatMessage
  | [] => []
  | entry :: rest =>
    historyEntryMessages env idx entry ++ mapHistoryAux env (idx + 1) rest

/-- ChatScreen's `mapHistoryToMessages`: the accumulated messages, except that
an empty accumulation falls back to (a copy of) `initialMessages`. -/
def mapHistoryToMessages (env : ChatEnv) (items : List ChatHistoryItem) :
    List ChatMessage :=
  let mapped := mapHistoryAux env 0 items
  if mapped.isEmpty then initialMessages env else mapped

/-- The ChatScreen component state relevant to the send/hydration logic. -/
structure ChatState where
  messages : List ChatMessage
  input : String
  sessionId : Option String
  followUpQuestion : Option String
  isTyping : Bool

/-- The ChatScreen state as mounted: greeting transcript, empty input, no
session, no pending follow-up. -/
def initialChatState (env : ChatEnv) : ChatState :=
  { messages := initialMessages env
    input := ""
    sessionId := none
    followUpQuestion := none
    isTyping := false }

/-- ChatScreen's `loadHistory` effect, from the point its awaited calls have
resolved: a null (or falsy) recent session leaves the state alone; otherwise
the session id is adopted and, if the history fetch succeeds, the transcript
is replaced with the hydrated messages (a history fetch failure is swallowed
by the `catch` after the session id was already set). -/
def loadHistory (env : ChatEnv) (s : ChatState) (recentSession : Option String)
    (history : Except Unit (List ChatHistoryItem)) : ChatState :=
  match recentSession with
  | none => s
  | some sid =>
    if sid = "" then s
    else
      let s1 := { s with sessionId := some sid }
      match history with
      | Except.ok items =>
        { s1 with
          messages := chatReducer s1.messages
            (ChatAction.set (mapHistoryToMessages env items)) }
      | Except.error _ => s1

/-- chatApi's `SendChatResponse`, plus the `followUpQuestion` field the
component reads from the raw response (absent from the declared interface but
inspected at runtime by `handleSend`). -/
structure SendChatResponse where
  status : Option String
  sessionId : Option String
  question : Option String
  reply : Option String
  timestamp : Option String
  error : Option String
  answer : Option String
  followUpQuestion : Option String
deriving DecidableEq, Repr

/-- Per-send environment inputs: the two generated message ids and the
formatted current time. -/
structure SendEnv where
  userMsgId : String
  botMsgId : String
  nowTime : String
deriving DecidableEq, Repr

/-- ChatScreen's disagreement test over the lowercased, trimmed just-sent
text: exact `"no"`, `"nope"`, `"disagree"`, `"i disagree"`, or prefix
`"no "` / `"i don't"`. -/
def isDisagreement (lowerText : String) : Bool :=
  lowerText = "no" || lowerText = "nope" || lowerText = "disagree" ||
  lowerText = ("i disagree") || jsStartsWith lowerText ("no ") ||
  jsStartsWith lowerText ("i don" ++ apos ++ "t")

/-- ChatScreen's `handleSend`, with the awaited `sendChatMessage` outcome
passed in (`Except.error` models a transport/HTTP failure reaching the
`catch`). Empty final text returns immediately; otherwise the user message is
appended, the input and pending follow-up are cleared, and on success: a
truthy response `sessionId` is adopted, the reply text falls back through
`reply || answer || "No response from server."`, the follow-up suggestion is
kept only when present and the user did not disagree, and the bot message is
appended. On failure a fixed connection-error bot message is appended. -/
def handleSend (env : SendEnv) (s : ChatState) (textToSend : Option String)
    (api : Except Unit SendChatResponse) : ChatState :=
  let finalText := match textToSend with
    | some t => t
    | none => jsTrim s.input
  if finalText = "" then s
  else
    let userMsg : ChatMessage :=
      { id := env.userMsgId, text := finalText
        sender := Sender.user, time := env.nowTime }
    let s1 : ChatState :=
      { s with
        messages := chatReducer s.messages (ChatAction.add userMsg)
        input := ""
        followUpQuestion := none
        isTyping := true }
    match api with
    | Except.ok response =>
      let s2 : ChatState :=
        if truthyStr response.sessionId then
          { s1 with sessionId := response.sessionId }
        else s1
      let answer :=
        jsOrStr response.reply (jsOrStr response.answer ("No response from server."))
      let lowerText := jsTrim (jsToLower finalText)
      let s3 : ChatState :=
        if truthyStr response.followUpQuestion ∧ isDisagreement lowerText = false then
          { s2 with followUpQuestion := response.followUpQuestion }
        else
          { s2 with followUpQuestion := none }
      let botMsg : ChatMessage :=
        { id := env.botMsgId, text := answer
          sender := Sender.bot, time := env.nowTime }
      { s3 with
        messages := chatReducer s3.messages (ChatAction.add botMsg)
        isTyping := false }
    | Except.error _ =>
      let errorMsg : ChatMessage :=
        { id := env.botMsgId
          text := "⚠️ Connection error. Please try again."
          sender := Sender.bot, time := env.nowTime }
      { s1 with
        messages := chatReducer s1.messages (ChatAction.add errorMsg)
        isTyping := false }

/-! Concrete sample values used by the witness theorems. -/

def sampleStats : CurrentStats :=
  { answeredCount := 1, correctCount := 1, wrongCount := 0
    currentAccuracy := 100
    difficultyBreakdown :=
      { Easy := { attempted := 1, correct := 1, accuracy := 100 }
        Medium := { attempted := 0, correct := 0, accuracy := 0 }
        Hard := { attempted := 0, correct := 0, accuracy := 0 } } }

def sampleQuestionMC : ExamQuestion :=
  { id := 11, subject := "Math", chapter := "Eq", topic := "Linear"
    text := "2 + 2 = ?", type := QuestionType.MultipleChoice
    difficulty := QuestionDifficulty.Easy
    options := [{ optionId := 1, optionText := "3" },
                { optionId := 2, optionText := "4" }] }

def sampleTemplateResp : ExamTemplateResponse :=
  { name := "Algebra", subject := "Math", chapter := "Eq"
    totalQuestions := 5, durationMinutes := 10, adaptiveEnabled := true
    id := 7, createdAt := "2026-01-01" }

def sampleAttempt : StartExamResponse :=
  { attemptId := 42, template := sampleTemplateResp
    firstQuestion := sampleQuestionMC }

def sampleLoading : LoadingState :=
  { template := false, start := false, answer := false
    summary := false, history := false }

def sampleExamState : ExamScreenState :=
  { templatePayload := sampleTemplateResp.toExamTemplateRequest
    createdTemplate := some sampleTemplateResp
    activeAttempt := some sampleAttempt
    currentQuestion := some sampleQuestionMC
    answerState := { selectedOptionId := "2", freeTextAnswer := ""
                     timeTakenSeconds := "30" }
    lastAnswerResponse := none
    summary := none
    historyStudentId := "student-001"
    history := []
    loading := sampleLoading
    startForm := { studentId := "student-001", examTemplateId := "7" } }

def sampleDoneResponse : SubmitAnswerResponse :=
  { isCorrect := some true, isCompleted := true
    nextQuestion := none, currentStats := sampleStats }

/-- C1: after a submit-answer success whose response has `nextQuestion = null`,
the current question becomes `null`; from that state `handleSubmitAnswer`
issues no request and changes nothing, the submit control is disabled, and a
successful `handleStartExam` (with a filled form) installs the new attempt's
first question again. -/
theorem submitAnswer_completion_is_terminal
    (s : ExamScreenState) (resp : SubmitAnswerResponse)
    (a : StartExamResponse) (q : ExamQuestion)
    (hA : s.activeAttempt = some a) (hQ : s.currentQuestion = some q)
    (hN : resp.nextQuestion = none) :
    ((handleSubmitAnswer s (Except.ok resp)).state.currentQuestion = none) ∧
    (∀ api, handleSubmitAnswer (handleSubmitAnswer s (Except.ok resp)).state api
      = { state := (handleSubmitAnswer s (Except.ok resp)).state
          request := none, alert := none }) ∧
    (disableAnswerSubmit (handleSubmitAnswer s (Except.ok resp)).state = true) ∧
    (∀ r2 : StartExamResponse,
      (handleSubmitAnswer s (Except.ok resp)).state.startForm.studentId ≠ "" →
      (handleSubmitAnswer s (Except.ok resp)).state.startForm.examTemplateId ≠ "" →
      (handleStartExam (handleSubmitAnswer s (Except.ok resp)).state
          (Except.ok r2)).state.currentQuestion = some r2.firstQuestion) := by
  have hstate : (handleSubmitAnswer s (Except.ok resp)).state.currentQuestion = none := by
    simp [handleSubmitAnswer, hA, hQ, hN]
  refine ⟨hstate, ?_, ?_, ?_⟩
  · intro api
    simp [handleSubmitAnswer, hA, hQ, hN]
  · simp [disableAnswerSubmit, hstate]
  · intro r2 h1 h2
    simp [handleStartExam, h1, h2]

/-- C1 witness: in the sample state, submitting the final answer leaves no
current question and disables the submit control. -/
theorem submitAnswer_completion_is_terminal_witness :
    ((handleSubmitAnswer sampleExamState
        (Except.ok sampleDoneResponse)).state.currentQuestion = none) ∧
    (disableAnswerSubmit (handleSubmitAnswer sampleExamState
        (Except.ok sampleDoneResponse)).state = true) := by
  have h := submitAnswer_completion_is_terminal sampleExamState
    sampleDoneResponse sampleAttempt sampleQuestionMC rfl rfl rfl
  exact ⟨h.1, h.2.2.1⟩

/-- C2: every answer submission that issues a request builds it with
`selectedOptionId` populated and `freeTextAnswer` null for a `MultipleChoice`
question; with `selectedOptionId` null and `freeTextAnswer` the trimmed text
(empty normalized to null) for every other type; and with `timeTakenSeconds`
clamped to be nonnegative. -/
theorem submitAnswer_request_shape
    (s : ExamScreenState) (api : Except JsThrown SubmitAnswerResponse)
    (q : ExamQuestion) (req : SubmitAnswerRequest)
    (hQ : s.currentQuestion = some q)
    (hreq : (handleSubmitAnswer s api).request = some req) :
    (q.type = QuestionType.MultipleChoice →
      req.selectedOptionId = some (toNumber s.answerState.selectedOptionId) ∧
      req.freeTextAnswer = none) ∧
    (q.type ≠ QuestionType.MultipleChoice →
      req.selectedOptionId = none ∧
      req.freeTextAnswer =
        (if jsTrim s.answerState.freeTextAnswer = "" then none
         else some (jsTrim s.answerState.freeTextAnswer))) ∧
    0 ≤ req.timeTakenSeconds := by
  cases hA : s.activeAttempt with
  | none => simp [handleSubmitAnswer, hA] at hreq
  | some a =>
    have hr : req =
        { questionId := q.id
          selectedOptionId :=
            if q.type = QuestionType.MultipleChoice then
              some (toNumber s.answerState.selectedOptionId)
            else none
          freeTextAnswer :=
            if q.type = QuestionType.MultipleChoice then none
            else if jsTrim s.answerState.freeTextAnswer = "" then none
            else some (jsTrim s.answerState.freeTextAnswer)
          timeTakenSeconds :=
            max 0 (toNumber s.answerState.timeTakenSeconds) } := by
      cases api with
      | ok response =>
        simp [handleSubmitAnswer, hA, hQ] at hreq
        exact hreq.symm
      | error e =>
        simp [handleSubmitAnswer, hA, hQ] at hreq
        exact hreq.symm
    subst hr
    refine ⟨?_, ?_, ?_⟩
    · intro hmc
      simp [hmc]
    · intro hmc
      simp [hmc]
    · exact le_max_left 0 _

/-- C2 witness: in the sample state (a `MultipleChoice` question with option
`"2"` selected), the transmitted request has a numeric option id, no free
text, and a nonnegative time. -/
theorem submitAnswer_request_shape_witness :
    some (toNumber "2") = some (2 : Int) ∧
    ((handleSubmitAnswer sampleExamState
        (Except.ok sampleDoneResponse)).request.map
          SubmitAnswerRequest.selectedOptionId = some (some 2)) ∧
    ((handleSubmitAnswer sampleExamState
        (Except.ok sampleDoneResponse)).request.map
          SubmitAnswerRequest.freeTextAnswer = some none) := by
  have h := submitAnswer_request_shape sampleExamState
    (Except.ok sampleDoneResponse) sampleQuestionMC
    { questionId := 11, selectedOptionId := some 2
      freeTextAnswer := none, timeTakenSeconds := 30 }
    rfl (by decide)
  have hmc := h.1 rfl
  refine ⟨by decide, ?_, ?_⟩
  · decide
  · decide

/-- C3: every create-template run transmits the payload with
`totalQuestions` and `durationMinutes` clamped up to at least 1 (a request is
issued for every outcome — values below 1 never cause a rejection), and a
successful run stores the created template and resets the active attempt, the
current question and the summary. -/
theorem createTemplate_clamps_and_resets
    (s : ExamScreenState) (result : ExamTemplateResponse) :
    (∀ api, ∃ p : ExamTemplateRequest,
      (handleCreateTemplate s api).request = some p ∧
      p = { s.templatePayload with
            totalQuestions := max 1 s.templatePayload.totalQuestions
            durationMinutes := max 1 s.templatePayload.durationMinutes } ∧
      1 ≤ p.totalQuestions ∧ 1 ≤ p.durationMinutes) ∧
    ((handleCreateTemplate s (Except.ok result)).state.createdTemplate
        = some result ∧
     (handleCreateTemplate s (Except.ok result)).state.activeAttempt = none ∧
     (handleCreateTemplate s (Except.ok result)).state.currentQuestion = none ∧
     (handleCreateTemplate s (Except.ok result)).state.summary = none) := by
  constructor
  · intro api
    refine ⟨_, ?_, rfl, le_max_left 1 _, le_max_left 1 _⟩
    cases api with
    | ok r => simp [handleCreateTemplate]
    | error e => simp [handleCreateTemplate]
  · simp [handleCreateTemplate]

/-- C4: for each of the five exam-workflow operations, a failed API call
leaves the workflow state (created template, active attempt, current
question, last answer response, summary, history) exactly as it was, and —
whenever the operation got past its input guard, i.e. actually issued the
call — surfaces the `handleError` alert. -/
theorem examWorkflow_error_preserves_state
    (s : ExamScreenState) (e : JsThrown) :
    (workflowCore (handleCreateTemplate s (Except.error e)).state
        = workflowCore s ∧
     (handleCreateTemplate s (Except.error e)).alert = some (handleError e)) ∧
    (workflowCore (handleStartExam s (Except.error e)).state = workflowCore s ∧
     (s.startForm.studentId ≠ "" → s.startForm.examTemplateId ≠ "" →
       (handleStartExam s (Except.error e)).alert = some (handleError e))) ∧
    (workflowCore (handleSubmitAnswer s (Except.error e)).state
        = workflowCore s ∧
     (s.activeAttempt.isSome = true → s.currentQuestion.isSome = true →
       (handleSubmitAnswer s (Except.error e)).alert = some (handleError e))) ∧
    (workflowCore (handleFetchSummary s (Except.error e)).state
        = workflowCore s ∧
     (s.activeAttempt.isSome = true →
       (handleFetchSummary s (Except.error e)).alert = some (handleError e))) ∧
    (workflowCore (handleFetchHistory s (Except.error e)).state
        = workflowCore s ∧
     (jsTrim s.historyStudentId ≠ "" →
       (handleFetchHistory s (Except.error e)).alert = some (handleError e))) := by
  refine ⟨⟨?_, ?_⟩, ⟨?_, ?_⟩, ⟨?_, ?_⟩, ⟨?_, ?_⟩, ⟨?_, ?_⟩⟩
  · simp [handleCreateTemplate, workflowCore]
  · simp [handleCreateTemplate]
  · by_cases h1 : s.startForm.studentId = "" ∨ s.startForm.examTemplateId = ""
    · simp [handleStartExam, h1]
    · simp [handleStartExam, h1, workflowCore]
  · intro h1 h2
    simp [handleStartExam, h1, h2]
  · cases hA : s.activeAttempt with
    | none => simp [handleSubmitAnswer, hA]
    | some a =>
      cases hQ : s.currentQuestion with
      | none => simp [handleSubmitAnswer, hA, hQ]
      | some q => simp [handleSubmitAnswer, hA, hQ, workflowCore]
  · intro h1 h2
    cases hA : s.activeAttempt with
    | none => rw [hA] at h1; simp at h1
    | some a =>
      cases hQ : s.currentQuestion with
      | none => rw [hQ] at h2; simp at h2
      | some q => simp [handleSubmitAnswer, hA, hQ]
  · cases hA : s.activeAttempt with
    | none => simp [handleFetchSummary, hA]
    | some a => simp [handleFetchSummary, hA, workflowCore]
  · intro h1
    cases hA : s.activeAttempt with
    | none => rw [hA] at h1; simp at h1
    | some a => simp [handleFetchSummary, hA]
  · by_cases h1 : jsTrim s.historyStudentId = ""
    · simp [handleFetchHistory, h1]
    · simp [handleFetchHistory, h1, workflowCore]
  · intro h1
    simp [handleFetchHistory, h1]

/-- C4 witness: in the fully populated sample state, a failed call on each of
the five operations surfaces the error alert and leaves the workflow state
untouched. -/
theorem examWorkflow_error_preserves_state_witness :
    (handleSubmitAnswer sampleExamState
        (Except.error (JsThrown.errObj ("boom")))).alert
      = some (handleError (JsThrown.errObj ("boom"))) ∧
    (handleStartExam sampleExamState
        (Except.error (JsThrown.errObj ("boom")))).alert
      = some (handleError (JsThrown.errObj ("boom"))) ∧
    (handleFetchSummary sampleExamState
        (Except.error (JsThrown.errObj ("boom")))).alert
      = some (handleError (JsThrown.errObj ("boom"))) ∧
    (handleFetchHistory sampleExamState
        (Except.error (JsThrown.errObj ("boom")))).alert
      = some (handleError (JsThrown.errObj ("boom"))) ∧
    workflowCore (handleCreateTemplate sampleExamState
        (Except.error (JsThrown.errObj ("boom")))).state
      = workflowCore sampleExamState := by
  have h := examWorkflow_error_preserves_state sampleExamState
    (JsThrown.errObj ("boom"))
  exact ⟨h.2.2.1.2 (by decide) (by decide),
         h.2.1.2 (by decide) (by decide),
         h.2.2.2.1.2 (by decide),
         h.2.2.2.2.2 (by decide),
         h.1.1⟩

/-- C5: `fetchMostRecentSessionId` is a total function of the fetch outcome
(it never raises), yielding `null` on transport failure, on any non-success
HTTP status, and on an unparsable body; and it yields a session id only for a
successful response whose parsed body carries that id. -/
theorem fetchMostRecentSessionId_never_raises :
    (fetchMostRecentSessionId ChatFetchOutcome.networkError = none) ∧
    (∀ st j, fetchMostRecentSessionId (ChatFetchOutcome.response false st j)
        = none) ∧
    (∀ ok st, fetchMostRecentSessionId (ChatFetchOutcome.response ok st none)
        = none) ∧
    (∀ o sid, fetchMostRecentSessionId o = some sid →
      ∃ st data, o = ChatFetchOutcome.response true st (some data) ∧
        data.sessionId = some sid) := by
  refine ⟨rfl, ?_, ?_, ?_⟩
  · intro st j
    simp [fetchMostRecentSessionId]
  · intro ok st
    cases ok <;> simp [fetchMostRecentSessionId]
  · intro o sid h
    cases o with
    | networkError => simp [fetchMostRecentSessionId] at h
    | response ok st json =>
      cases ok with
      | false => simp [fetchMostRecentSessionId] at h
      | true =>
        cases json with
        | none => simp [fetchMostRecentSessionId] at h
        | some data =>
          refine ⟨st, data, rfl, ?_⟩
          simpa [fetchMostRecentSessionId] using h

/-- C5 witness: a successful response carrying a session id yields it, and
the theorem pins that to the response shape. -/
theorem fetchMostRecentSessionId_never_raises_witness :
    ∃ st data,
      ChatFetchOutcome.response true 200
          (some { status := some ("success"), sessionId := some ("abc") })
        = ChatFetchOutcome.response true st (some data) ∧
      data.sessionId = some ("abc") := by
  exact fetchMostRecentSessionId_never_raises.2.2.2 _ ("abc") (by decide)

/-- C6: the exam request helper raises an `ApiError` carrying the numeric
status on every non-success response, with the message drawn from the JSON
body's `message` field, else its `error` field, else the HTTP status text;
a 204 yields the empty result object regardless of the body; and an empty
body on a success status yields the empty result object instead of a parse
error. -/
theorem request_status_and_body_handling (r : HttpResponse) :
    (r.ok = false →
      ∃ m, request r = Except.error { status := r.status, message := m }) ∧
    (∀ b m, r.ok = false → r.bodyRaw ≠ "" → r.bodyJson = some b →
      b.message = some m → m ≠ "" →
      request r = Except.error { status := r.status, message := m }) ∧
    (∀ b m, r.ok = false → r.bodyRaw ≠ "" → r.bodyJson = some b →
      truthyStr b.message = false → b.error = some m → m ≠ "" →
      request r = Except.error { status := r.status, message := m }) ∧
    (r.ok = false → r.statusText ≠ "" →
      (r.bodyRaw = "" ∨ r.bodyJson = none ∨
        (∃ b, r.bodyJson = some b ∧ truthyStr b.message = false ∧
          truthyStr b.error = false)) →
      request r = Except.error { status := r.status
                                 message := r.statusText }) ∧
    (r.ok = true → r.status = 204 → request r = Except.ok ParsedBody.emptyObj) ∧
    (r.ok = true → r.bodyRaw = "" → request r = Except.ok ParsedBody.emptyObj) := by
  refine ⟨?_, ?_, ?_, ?_, ?_, ?_⟩
  · intro hok
    by_cases hraw : r.bodyRaw = ""
    · refine ⟨if r.statusText = "" then "Request failed" else r.statusText, ?_⟩
      simp [request, hok, parseJson, hraw]
    · cases hjson : r.bodyJson with
      | none =>
        refine ⟨if r.statusText = "" then "Request failed" else r.statusText, ?_⟩
        simp [request, hok, parseJson, hraw, hjson]
      | some b =>
        refine ⟨jsOrStr b.message (jsOrStr b.error
          (if r.statusText = "" then "Request failed" else r.statusText)), ?_⟩
        simp [request, hok, parseJson, hraw, hjson]
  · intro b m hok hraw hjson hmsg hm
    simp [request, hok, parseJson, hraw, hjson, jsOrStr, hmsg, hm]
  · intro b m hok hraw hjson hmsg herr hm
    cases hb : b.message with
    | none => simp [request, hok, parseJson, hraw, hjson, jsOrStr, hb, herr, hm]
    | some ms =>
      have hms : ms = "" := by
        rw [hb] at hmsg
        simpa [truthyStr] using hmsg
      subst hms
      simp [request, hok, parseJson, hraw, hjson, jsOrStr, hb, herr, hm]
  · intro hok hst hbody
    have hd : (if r.statusText = "" then "Request failed" else r.statusText)
        = r.statusText := by simp [hst]
    rcases hbody with hraw | hjson | ⟨b, hjson, hbm, hbe⟩
    · simp [request, hok, parseJson, hraw, hd]
    · by_cases hraw : r.bodyRaw = ""
      · simp [request, hok, parseJson, hraw, hd]
      · simp [request, hok, parseJson, hraw, hjson, hd]
    · by_cases hraw : r.bodyRaw = ""
      · simp [request, hok, parseJson, hraw, hd]
      · cases hb : b.message with
        | none =>
          cases he : b.error with
          | none => simp [request, hok, parseJson, hraw, hjson, jsOrStr, hb, he, hd]
          | some es =>
            have hes : es = "" := by
              rw [he] at hbe
              simpa [truthyStr] using hbe
            subst hes
            simp [request, hok, parseJson, hraw, hjson, jsOrStr, hb, he, hd]
        | some ms =>
          have hms : ms = "" := by
            rw [hb] at hbm
            simpa [truthyStr] using hbm
          subst hms
          cases he : b.error with
          | none => simp [request, hok, parseJson, hraw, hjson, jsOrStr, hb, he, hd]
          | some es =>
            have hes : es = "" := by
              rw [he] at hbe
              simpa [truthyStr] using hbe
            subst hes
            simp [request, hok, parseJson, hraw, hjson, jsOrStr, hb, he, hd]
  · intro hok h204
    simp [request, hok, h204]
  · intro hok hraw
    by_cases h204 : r.status = 204
    · simp [request, hok, h204]
    · simp [request, hok, h204, parseJson, hraw]

/-- C6 witness: a 500 response whose JSON body has `message := "Boom"` raises
`ApiError 500 "Boom"`, and a 204 yields the empty result object. -/
theorem request_status_and_body_handling_witness :
    (request { ok := false, status := 500, statusText := "Server Error"
               bodyRaw := "x"
               bodyJson := some { message := some ("Boom"), error := none } }
      = Except.error { status := 500, message := "Boom" }) ∧
    (request { ok := true, status := 204, statusText := "No Content"
               bodyRaw := "", bodyJson := none }
      = Except.ok ParsedBody.emptyObj) := by
  constructor
  · exact (request_status_and_body_handling _).2.1
      { message := some ("Boom"), error := none } ("Boom")
      rfl (by decide) rfl rfl (by decide)
  · exact (request_status_and_body_handling _).2.2.2.2.1 rfl rfl

def sampleSendEnv : SendEnv :=
  { userMsgId := "u1", botMsgId := "b1", nowTime := "10:00" }

def sampleChatState : ChatState :=
  { messages := [], input := "", sessionId := none
    followUpQuestion := none, isTyping := false }

def sampleFollowUpResponse : SendChatResponse :=
  { status := some ("success"), sessionId := some ("sess-1")
    question := none, reply := some ("Sure!"), timestamp := none
    error := none, answer := none
    followUpQuestion := some ("Want a quiz?") }

/-- C7: on a successful send whose response carries a (truthy) follow-up
suggestion, the resulting pending follow-up prompt is `none` exactly when the
user's just-sent text, lowercased and trimmed, matches the disagreement
signals; otherwise it is exactly the suggested text, whatever prompt was
pending before. -/
theorem handleSend_followUp_suppression
    (env : SendEnv) (s : ChatState) (resp : SendChatResponse)
    (t f : String) (hf : resp.followUpQuestion = some f) (hfne : f ≠ "")
    (ht : t ≠ "") :
    (handleSend env s (some t) (Except.ok resp)).followUpQuestion
      = if isDisagreement (jsTrim (jsToLower t)) = true then none
        else some f := by
  by_cases hd : isDisagreement (jsTrim (jsToLower t)) = true
  · simp [handleSend, ht, hf, hd, truthyStr, hfne, chatReducer, apply_ite]
  · simp [handleSend, ht, hf, hd, truthyStr, hfne, chatReducer, apply_ite]

/-- C7 witness: disagreement inputs leave no pending prompt; an agreeing
input installs the suggested text. -/
theorem handleSend_followUp_suppression_witness :
    (handleSend sampleSendEnv sampleChatState (some ("No"))
        (Except.ok sampleFollowUpResponse)).followUpQuestion = none ∧
    (handleSend sampleSendEnv sampleChatState (some ("NOPE"))
        (Except.ok sampleFollowUpResponse)).followUpQuestion = none ∧
    (handleSend sampleSendEnv sampleChatState (some ("I Disagree"))
        (Except.ok sampleFollowUpResponse)).followUpQuestion = none ∧
    (handleSend sampleSendEnv sampleChatState
        (some ("i don" ++ apos ++ "t think so"))
        (Except.ok sampleFollowUpResponse)).followUpQuestion = none ∧
    (handleSend sampleSendEnv sampleChatState (some ("Yes please"))
        (Except.ok sampleFollowUpResponse)).followUpQuestion
      = some ("Want a quiz?") := by
  refine ⟨?_, ?_, ?_, ?_, ?_⟩ <;>
  · rw [handleSend_followUp_suppression _ _ _ _ _ rfl (by decide) (by decide)]
    decide

/-- C8: on a successful send, the transcript gains exactly the user message
and a bot message whose text is the response's `reply` when truthy, else its
`answer` when truthy, else the fixed placeholder. -/
theorem handleSend_reply_fallback
    (env : SendEnv) (s : ChatState) (t : String) (resp : SendChatResponse)
    (ht : t ≠ "") :
    (∀ r, resp.reply = some r → r ≠ "" →
      (handleSend env s (some t) (Except.ok resp)).messages
        = s.messages ++
          [{ id := env.userMsgId, text := t
             sender := Sender.user, time := env.nowTime },
           { id := env.botMsgId, text := r
             sender := Sender.bot, time := env.nowTime }]) ∧
    (∀ r, truthyStr resp.reply = false → resp.answer = some r → r ≠ "" →
      (handleSend env s (some t) (Except.ok resp)).messages
        = s.messages ++
          [{ id := env.userMsgId, text := t
             sender := Sender.user, time := env.nowTime },
           { id := env.botMsgId, text := r
             sender := Sender.bot, time := env.nowTime }]) ∧
    (truthyStr resp.reply = false → truthyStr resp.answer = false →
      (handleSend env s (some t) (Except.ok resp)).messages
        = s.messages ++
          [{ id := env.userMsgId, text := t
             sender := Sender.user, time := env.nowTime },
           { id := env.botMsgId, text := "No response from server."
             sender := Sender.bot, time := env.nowTime }]) := by
  have hcase : ∀ o : Option String, truthyStr o = false →
      jsOrStr o = fun b => b := by
    intro o ho
    funext b
    cases o with
    | none => rfl
    | some os =>
      have hos : os = "" := by simpa [truthyStr] using ho
      subst hos
      simp [jsOrStr]
  refine ⟨?_, ?_, ?_⟩
  · intro r hr hrne
    by_cases h1 : truthyStr resp.sessionId = true
    all_goals by_cases h2 : (truthyStr resp.followUpQuestion = true ∧
      isDisagreement (jsTrim (jsToLower t)) = false)
    all_goals simp [handleSend, ht, chatReducer, jsOrStr, hr, hrne, h1, h2]
  · intro r hrf ha hane
    have hre := hcase resp.reply hrf
    have han : ∀ d, jsOrStr resp.answer d = r := by
      intro d
      simp [jsOrStr, ha, hane]
    by_cases h1 : truthyStr resp.sessionId = true
    all_goals by_cases h2 : (truthyStr resp.followUpQuestion = true ∧
      isDisagreement (jsTrim (jsToLower t)) = false)
    all_goals simp [handleSend, ht, chatReducer, hre, han, h1, h2]
  · intro hrf haf
    have hre := hcase resp.reply hrf
    have han := hcase resp.answer haf
    by_cases h1 : truthyStr resp.sessionId = true
    all_goals by_cases h2 : (truthyStr resp.followUpQuestion = true ∧
      isDisagreement (jsTrim (jsToLower t)) = false)
    all_goals simp [handleSend, ht, chatReducer, hre, han, h1, h2]

/-- C8 witness: with `reply := "Sure!"`, the transcript ends in the user
message and the bot message carrying that reply. -/
theorem handleSend_reply_fallback_witness :
    (handleSend sampleSendEnv sampleChatState (some ("Hi"))
        (Except.ok sampleFollowUpResponse)).messages
      = [{ id := "u1", text := "Hi", sender := Sender.user, time := "10:00" },
         { id := "b1", text := "Sure!", sender := Sender.bot, time := "10:00" }] := by
  have h := (handleSend_reply_fallback sampleSendEnv sampleChatState ("Hi")
    sampleFollowUpResponse (by decide)).1 ("Sure!") rfl (by decide)
  simpa [sampleChatState, sampleSendEnv] using h

def sampleChatEnv : ChatEnv :=
  { initTime := "09:00", nowTime := "10:00"
    fmtTime := fun _ => some ("08:00") }

/-- Projection of the hydration accumulation, for any starting index: when
every entry has a nonempty message and a nonempty reply, each entry yields
exactly its user message followed by its bot reply, in entry order. -/
theorem mapHistoryAux_proj (env : ChatEnv) :
    ∀ (items : List ChatHistoryItem) (n : Nat),
      (∀ e ∈ items, e.message ≠ "" ∧ ∃ r, e.reply = some r ∧ r ≠ "") →
      (mapHistoryAux env n items).map (fun m => (m.sender, m.text))
        = items.flatMap (fun e => [(Sender.user, e.message),
                                   (Sender.bot, e.reply.getD "")]) := by
  intro items
  induction items with
  | nil =>
    intro n h
    simp [mapHistoryAux]
  | cons e rest ih =>
    intro n h
    obtain ⟨hm, r, hr, hrne⟩ := h e (by simp)
    have hrest : ∀ x ∈ rest, x.message ≠ "" ∧ ∃ r, x.reply = some r ∧ r ≠ "" :=
      fun x hx => h x (by simp [hx])
    simp [mapHistoryAux, historyEntryMessages, hm, hr, hrne, ih (n + 1) hrest]

/-- C9: hydration round-trips the history encoding: for a nonempty item list
whose entries all have a nonempty message and a nonempty reply, the hydrated
transcript consists of exactly one user message (the entry's `message`)
followed by one bot message (the entry's `reply`) per entry, in entry
order. -/
theorem mapHistory_roundtrip (env : ChatEnv) (items : List ChatHistoryItem)
    (hne : items ≠ [])
    (h : ∀ e ∈ items, e.message ≠ "" ∧ ∃ r, e.reply = some r ∧ r ≠ "") :
    (mapHistoryToMessages env items).map (fun m => (m.sender, m.text))
      = items.flatMap (fun e => [(Sender.user, e.message),
                                 (Sender.bot, e.reply.getD "")]) := by
  have hproj := mapHistoryAux_proj env items 0 h
  cases items with
  | nil => cases hne rfl
  | cons e rest =>
    obtain ⟨hm, r, hr, hrne⟩ := h e (by simp)
    have hmap : (mapHistoryAux env 0 (e :: rest)).isEmpty = false := by
      simp [mapHistoryAux, historyEntryMessages, hm, hr, hrne]
    simpa [mapHistoryToMessages, hmap] using hproj

/-- C9 witness: the single history entry `{id: 1, message: "hi", reply:
"hello", timestamp: T}` hydrates to the two-message transcript
`[user "hi", bot "hello"]`, in that order. -/
theorem mapHistory_roundtrip_witness :
    (mapHistoryToMessages sampleChatEnv
        [{ id := some ("1"), message := "hi", reply := some ("hello")
           timestamp := some ("T") }]).map (fun m => (m.sender, m.text))
      = [(Sender.user, "hi"), (Sender.bot, "hello")] := by
  have h := mapHistory_roundtrip sampleChatEnv
    [{ id := some ("1"), message := "hi", reply := some ("hello")
       timestamp := some ("T") }]
    (by simp)
    (by
      intro e he
      simp at he
      subst he
      exact ⟨by decide, "hello", rfl, by decide⟩)
  simpa using h

/-- C10: hydration never leaves the transcript empty: when every fetched
entry lacks both a nonempty message and a nonempty reply (or the list is
empty), the transcript becomes exactly the default greeting; the hydrated
transcript is nonempty for every item list; and `loadHistory` from the
mounted state leaves a nonempty transcript for every session-lookup and
history outcome. -/
theorem hydration_never_empty (env : ChatEnv) :
    (∀ items : List ChatHistoryItem,
      (∀ e ∈ items, e.message = "" ∧ (e.reply = none ∨ e.reply = some "")) →
      mapHistoryToMessages env items = initialMessages env) ∧
    (∀ items, mapHistoryToMessages env items ≠ []) ∧
    (∀ recentSession history,
      (loadHistory env (initialChatState env) recentSession history).messages
        ≠ []) := by
  have hblank : ∀ (items : List ChatHistoryItem) (n : Nat),
      (∀ e ∈ items, e.message = "" ∧ (e.reply = none ∨ e.reply = some "")) →
      mapHistoryAux env n items = [] := by
    intro items
    induction items with
    | nil =>
      intro n h
      rfl
    | cons e rest ih =>
      intro n h
      obtain ⟨hm, hrep⟩ := h e (by simp)
      have hrest : ∀ x ∈ rest, x.message = "" ∧
          (x.reply = none ∨ x.reply = some "") :=
        fun x hx => h x (by simp [hx])
      rcases hrep with hr | hr
      · simp [mapHistoryAux, historyEntryMessages, hm, hr, ih (n + 1) hrest]
      · simp [mapHistoryAux, historyEntryMessages, hm, hr, ih (n + 1) hrest]
  have h2 : ∀ items, mapHistoryToMessages env items ≠ [] := by
    intro items
    by_cases hmap : (mapHistoryAux env 0 items).isEmpty = true
    · simp [mapHistoryToMessages, hmap, initialMessages]
    · simp only [mapHistoryToMessages]
      rw [if_neg (by simpa using hmap)]
      simpa using hmap
  refine ⟨?_, h2, ?_⟩
  · intro items h
    simp [mapHistoryToMessages, hblank items 0 h]
  · intro recentSession history
    cases recentSession with
    | none => simp [loadHistory, initialChatState, initialMessages]
    | some sid =>
      by_cases hsid : sid = ""
      · simp [loadHistory, hsid, initialChatState, initialMessages]
      · cases history with
        | ok items =>
          simp [loadHistory, hsid, chatReducer, initialChatState]
          exact h2 items
        | error u =>
          simp [loadHistory, hsid, initialChatState, initialMessages]

/-- C10 witness: a history whose sole entry has an empty message and no reply
hydrates to the default greeting, and a failed hydration from the mounted
state leaves the (nonempty) greeting transcript. -/
theorem hydration_never_empty_witness :
    mapHistoryToMessages sampleChatEnv
        [{ id := none, message := "", reply := none, timestamp := none }]
      = initialMessages sampleChatEnv ∧
    (loadHistory sampleChatEnv (initialChatState sampleChatEnv) none
        (Except.error ())).messages ≠ [] := by
  refine ⟨(hydration_never_empty sampleChatEnv).1 _ ?_,
          (hydration_never_empty sampleChatEnv).2.2 none (Except.error ())⟩
  intro e he
  simp at he
  subst he
  exact ⟨rfl, Or.inl rfl⟩
